import Mathlib

/-!
Shallow embedding of the adaptive upstream-rate-governed request gateway of
the NyayMitra backend: the sliding-window rate limiter with circuit breaker
(`backend/agents/rate_limiter.py`), its serverless variant
(`api/agents/rate_limiter.py`), the intelligent rate-limit recovery
controller (`backend/agents/rate_limit_recovery.py`) and the batch
processor / batch response demultiplexer (`backend/agents/api_optimizer.py`).

Conventions of the embedding:
* instants and durations are rationals (seconds); `time.sleep(d)` is modelled
  by advancing the current instant by `d`;
* Python floats are modelled as exact rationals (`0.2 = 1/5`, `0.9 = 9/10`);
* random jitter terms are either taken as explicit function parameters or,
  where they cannot influence the observed control flow, as zero;
* a Python function that can `raise` returns `Except String` carrying the
  exception message;
* calendar dates (`datetime.fromtimestamp(t).date()`) are modelled as epoch
  days `⌊t / 86400⌋`.
-/

/-- Lower-case an ASCII string, mirroring Python `str.lower()` on the ASCII
error messages used by the gateway. -/
def strLower (s : String) : String :=
  String.mk (s.toList.map Char.toLower)

/-- `isPrefixOfCh pat l` : does `l` start with `pat`? -/
def isPrefixOfCh : List Char → List Char → Bool
  | [], _ => true
  | _ :: _, [] => false
  | a :: as, b :: bs => a == b && isPrefixOfCh as bs

/-- Index of the first occurrence of `pat` in `hay`, mirroring Python
`str.find` (which returns -1 when absent; we use `none`). -/
def findSubIdx (pat : List Char) : List Char → Option Nat
  | [] => if isPrefixOfCh pat [] then some 0 else none
  | c :: t =>
    if isPrefixOfCh pat (c :: t) then some 0
    else (findSubIdx pat t).map (· + 1)

/-- Substring containment, mirroring Python `pat in hay`. -/
def containsSub (hay pat : String) : Bool :=
  (findSubIdx pat.toList hay.toList).isSome

/-- Minimum of a list of rationals with a default for the (unreachable in the
source, where Python `min` would raise on `[]`) empty case, mirroring
`min(self.minute_requests)`. -/
def listMin (l : List ℚ) (dflt : ℚ) : ℚ :=
  match l with
  | [] => dflt
  | h :: t => t.foldl min h

/-- Calendar date of an instant, modelled as the epoch day
(`datetime.fromtimestamp(t).date()` in the source). -/
def dateOf (t : ℚ) : ℤ := ⌊t / 86400⌋

/-! ## IntelligentRateLimitRecovery (backend/agents/rate_limit_recovery.py)

The adaptive backoff controller: a ring buffer of rate-limit events, an
adaptive inter-request delay, and consecutive success/failure counters. -/

/-- `RateLimitEvent` dataclass (rate_limit_recovery.py lines 8-14). -/
structure RateLimitEvent where
  timestamp : ℚ
  error_message : String
  retry_after : Option ℕ
  quota_type : String
deriving Repr, DecidableEq

/-- Mutable state of `IntelligentRateLimitRecovery` (lines 22-31). -/
structure RecoveryState where
  rate_limit_events : List RateLimitEvent
  adaptive_delay : ℚ
  max_adaptive_delay : ℚ
  min_adaptive_delay : ℚ
  consecutive_successes : ℕ
  consecutive_failures : ℕ
  last_success_time : ℚ
deriving Repr, DecidableEq

/-- `IntelligentRateLimitRecovery.__init__`: delay starts at 5s, clamp range
[2s, 300s]. -/
def initRecovery : RecoveryState :=
  { rate_limit_events := []
    adaptive_delay := 5
    max_adaptive_delay := 300
    min_adaptive_delay := 2
    consecutive_successes := 0
    consecutive_failures := 0
    last_success_time := 0 }

/-- `_detect_quota_type` (lines 66-79): keyword classification of the error
text. -/
def detect_quota_type (msg : String) : String :=
  let l := strLower msg
  if containsSub l "requests per minute" || containsSub l "rpm" then
    "requests_per_minute"
  else if containsSub l "requests per day" || containsSub l "rpd" then
    "requests_per_day"
  else if containsSub l "tokens per minute" || containsSub l "tpm" then
    "tokens_per_minute"
  else if containsSub l "concurrent requests" then
    "concurrent_requests"
  else
    "unknown"

/-- `_increase_adaptive_delay` (lines 81-88): multiply by
`1.5 + consecutive_failures * 0.2` and clamp to the maximum.  Called after
`consecutive_failures` has been incremented. -/
def increase_adaptive_delay (s : RecoveryState) : RecoveryState :=
  let multiplier : ℚ := 3/2 + (s.consecutive_failures : ℚ) * (1/5)
  { s with adaptive_delay := min (s.adaptive_delay * multiplier) s.max_adaptive_delay }

/-- `_decrease_adaptive_delay` (lines 90-97): multiply by 0.9 and clamp to the
minimum, but only when the delay is strictly above the minimum. -/
def decrease_adaptive_delay (s : RecoveryState) : RecoveryState :=
  if s.min_adaptive_delay < s.adaptive_delay then
    { s with adaptive_delay := max (s.adaptive_delay * (9/10)) s.min_adaptive_delay }
  else s

/-- Ring-buffer trim: `if len(self.rate_limit_events) > 100: ... [-100:]`. -/
def trimEvents (l : List RateLimitEvent) : List RateLimitEvent :=
  if 100 < l.length then l.drop (l.length - 100) else l

/-- `record_rate_limit` (lines 33-53): append a classified event, bump the
failure streak, reset the success streak, and increase the adaptive delay. -/
def record_rate_limit (now : ℚ) (msg : String) (retry_after : Option ℕ)
    (s : RecoveryState) : RecoveryState :=
  let event : RateLimitEvent :=
    { timestamp := now
      error_message := msg
      retry_after := retry_after
      quota_type := detect_quota_type msg }
  increase_adaptive_delay
    { s with
      rate_limit_events := trimEvents (s.rate_limit_events ++ [event])
      consecutive_failures := s.consecutive_failures + 1
      consecutive_successes := 0 }

/-- `record_success` (lines 55-64): bump the success streak, reset the failure
streak, note the success time, and after ≥3 consecutive successes decrease
the delay. -/
def record_success (now : ℚ) (s : RecoveryState) : RecoveryState :=
  let s' := { s with
    consecutive_successes := s.consecutive_successes + 1
    consecutive_failures := 0
    last_success_time := now }
  if 3 ≤ s'.consecutive_successes then decrease_adaptive_delay s' else s'

/-- `should_pause_requests` (lines 119-138): full-stop pause decision. -/
def should_pause_requests (now : ℚ) (s : RecoveryState) : Bool × ℚ :=
  if 5 ≤ s.consecutive_failures then
    (true, min (60 * 2 ^ (s.consecutive_failures - 5)) 900)
  else
    let recent_events := s.rate_limit_events.filter
      (fun e => decide (now - e.timestamp < 60))
    if 3 ≤ recent_events.length then (true, 120)
    else (false, 0)

example : detect_quota_type "You exceeded Requests Per Minute" = "requests_per_minute" := by decide
example : detect_quota_type "boom" = "unknown" := by decide
example : (record_rate_limit 7 "429 rate limit" none initRecovery).adaptive_delay = 17/2 := by
  norm_num [record_rate_limit, increase_adaptive_delay, initRecovery, trimEvents]
example : (record_success 1 (record_success 1 (record_success 1 initRecovery))).adaptive_delay = 9/2 := by
  norm_num [record_success, decrease_adaptive_delay, initRecovery]
example : should_pause_requests 0 { initRecovery with consecutive_failures := 7 } = (true, 240) := by
  norm_num [should_pause_requests, initRecovery]

/-! ## RateLimiter (backend/agents/rate_limiter.py)

Sliding minute/day windows, a consecutive-failure circuit breaker, and an
`execute_with_rate_limit` retry loop.  `time.sleep` advances the modelled
instant; random backoff jitter (`random.uniform(-0.5, 0.5)` added to a
capped exponential delay) influences only sleep durations, never branching,
and is modelled as 0. -/

/-- Mutable state of `RateLimiter` (rate_limiter.py lines 14-41). -/
structure RLState where
  minute_requests : List ℚ
  daily_requests : List ℚ
  max_requests_per_minute : ℕ
  max_requests_per_day : ℕ
  circuit_breaker_failures : ℕ
  circuit_breaker_threshold : ℕ
  circuit_breaker_reset_time : Option ℚ
  circuit_breaker_timeout : ℚ
  base_delay : ℚ
  max_delay : ℚ
  total_requests : ℕ
  successful_requests : ℕ
  failed_requests : ℕ
  rate_limited_count : ℕ
deriving Repr, DecidableEq

/-- `RateLimiter.__init__` defaults: 50/min, 1200/day, breaker threshold 5
with 60s timeout, backoff base 2s capped at 60s. -/
def initRateLimiter : RLState :=
  { minute_requests := []
    daily_requests := []
    max_requests_per_minute := 50
    max_requests_per_day := 1200
    circuit_breaker_failures := 0
    circuit_breaker_threshold := 5
    circuit_breaker_reset_time := none
    circuit_breaker_timeout := 60
    base_delay := 2
    max_delay := 60
    total_requests := 0
    successful_requests := 0
    failed_requests := 0
    rate_limited_count := 0 }

/-- `_clean_request_history` (lines 43-53): drop minute records older than
60s and day records from a different calendar date. -/
def clean_request_history (now : ℚ) (s : RLState) : RLState :=
  { s with
    minute_requests := s.minute_requests.filter (fun t => decide (now - t < 60))
    daily_requests := s.daily_requests.filter (fun t => decide (dateOf t = dateOf now)) }

/-- `_is_circuit_open` (lines 55-71).  Returns the answer together with the
state, since the check lazily opens the breaker (setting `reset_time`) or
resets it once the timeout has passed. -/
def is_circuit_open (now : ℚ) (s : RLState) : Bool × RLState :=
  if s.circuit_breaker_threshold ≤ s.circuit_breaker_failures then
    match s.circuit_breaker_reset_time with
    | some r =>
      if now < r then (true, s)
      else (false, { s with circuit_breaker_failures := 0, circuit_breaker_reset_time := none })
    | none =>
      (true, { s with circuit_breaker_reset_time := some (now + s.circuit_breaker_timeout) })
  else (false, s)

/-- `_calculate_backoff_delay` (lines 73-77), with the ±0.5s jitter taken as
0: `max(0, min(base_delay * 2^attempt, max_delay))`. -/
def calculate_backoff_delay (attempt : ℕ) (s : RLState) : ℚ :=
  max 0 (min (s.base_delay * 2 ^ attempt) s.max_delay)

/-- Outcome of `_wait_if_needed`: the instant after any sleeps and the
"waited" flag, or the daily-limit exception. -/
abbrev WaitOutcome := Except String (ℚ × Bool)

/-- Minute-limit, daily-limit and courtesy-delay part of `_wait_if_needed`
(lines 91-112), reached when the circuit breaker is not open.  A minute
window at capacity with `wait_time = 61 - (now - oldest) ≤ 0` falls through
to the daily check, exactly as in the source. -/
def waitAfterCircuit (now : ℚ) (s : RLState) : WaitOutcome :=
  let minuteWait : Option ℚ :=
    if s.max_requests_per_minute ≤ s.minute_requests.length then
      let oldest := listMin s.minute_requests now
      let w := 61 - (now - oldest)
      if 0 < w then some w else none
    else none
  match minuteWait with
  | some w => .ok (now + w, true)
  | none =>
    if s.max_requests_per_day ≤ s.daily_requests.length then
      .error "Daily rate limit exceeded. Please try again tomorrow."
    else
      .ok (now + 1/2, false)

/-- `_wait_if_needed` (lines 79-112): clean the windows; if the breaker is
open, sleep until `reset_time` and return; otherwise wait out the minute
window, fail on a full day window, or sleep the 0.5s courtesy delay.  The
state is returned in both cases because the in-place cleaning and breaker
mutations survive the daily-limit `raise`. -/
def wait_if_needed (now : ℚ) (s : RLState) : WaitOutcome × RLState :=
  let s := clean_request_history now s
  match is_circuit_open now s with
  | (true, s') =>
    let r := s'.circuit_breaker_reset_time.getD now
    (.ok (r, true), s')
  | (false, s') => (waitAfterCircuit now s', s')

/-- `record_request` (lines 114-127): stamp both windows and update the
counters; success resets the breaker failure count, failure increments it. -/
def record_request (now : ℚ) (success : Bool) (s : RLState) : RLState :=
  let s := { s with
    minute_requests := s.minute_requests ++ [now]
    daily_requests := s.daily_requests ++ [now]
    total_requests := s.total_requests + 1 }
  if success then
    { s with successful_requests := s.successful_requests + 1, circuit_breaker_failures := 0 }
  else
    { s with failed_requests := s.failed_requests + 1,
             circuit_breaker_failures := s.circuit_breaker_failures + 1 }

/-- The rate-limit classifier of `execute_with_rate_limit` (line 151):
`any(term in error_str for term in ['429', 'rate limit', 'quota', 'too many'])`
over the lower-cased message. -/
def isRateLimitErrorRL (e : String) : Bool :=
  let l := strLower e
  containsSub l "429" || containsSub l "rate limit" || containsSub l "quota" ||
    containsSub l "too many"

/-- Trace of one `execute_with_rate_limit` call: final result, final state,
final instant, number of invocations of `func`, and the instants at which
`func` was invoked. -/
structure ExecTrace where
  result : Except String String
  state : RLState
  now : ℚ
  funcCalls : ℕ
  callTimes : List ℚ
deriving Repr

/-- The retry loop of `execute_with_rate_limit` (lines 129-166).  `remaining`
counts loop iterations still allowed (initially `max_retries`), and
`attempt = max_retries - remaining` is the zero-based attempt index.  The
`try` block covers `_wait_if_needed` as well, so a daily-limit exception is
fed to the same rate-limit classifier as an upstream failure.  When all
retries are exhausted the wrapped
`"Rate limit exceeded after N attempts: <last>"` exception is raised. -/
def execute_go (func : ℕ → Except String String) (max_retries : ℕ) :
    ℕ → ℕ → Option String → ℚ → RLState → ℕ → List ℚ → ExecTrace
  | 0, _, lastExc, now, s, calls, times =>
    { result := .error ("Rate limit exceeded after " ++ toString max_retries ++
        " attempts: " ++ lastExc.getD "None")
      state := s, now := now, funcCalls := calls, callTimes := times }
  | remaining + 1, attempt, _, now, s, calls, times =>
    match wait_if_needed now s with
    | (.error e, s1) =>
      if isRateLimitErrorRL e then
        let s2 := record_request now false
          { s1 with rate_limited_count := s1.rate_limited_count + 1 }
        if 0 < remaining then
          execute_go func max_retries remaining (attempt + 1) (some e)
            (now + calculate_backoff_delay attempt s2) s2 calls times
        else
          { result := .error ("Rate limit exceeded after " ++ toString max_retries ++
              " attempts: " ++ e)
            state := s2, now := now, funcCalls := calls, callTimes := times }
      else
        { result := .error e, state := record_request now false s1, now := now,
          funcCalls := calls, callTimes := times }
    | (.ok (now1, _), s1) =>
      match func calls with
      | .ok v =>
        { result := .ok v, state := record_request now1 true s1, now := now1,
          funcCalls := calls + 1, callTimes := times ++ [now1] }
      | .error e =>
        if isRateLimitErrorRL e then
          let s2 := record_request now1 false
            { s1 with rate_limited_count := s1.rate_limited_count + 1 }
          if 0 < remaining then
            execute_go func max_retries remaining (attempt + 1) (some e)
              (now1 + calculate_backoff_delay attempt s2) s2 (calls + 1) (times ++ [now1])
          else
            { result := .error ("Rate limit exceeded after " ++ toString max_retries ++
                " attempts: " ++ e)
              state := s2, now := now1, funcCalls := calls + 1, callTimes := times ++ [now1] }
        else
          { result := .error e, state := record_request now1 false s1, now := now1,
            funcCalls := calls + 1, callTimes := times ++ [now1] }

/-- `execute_with_rate_limit` (lines 129-166): run the retry loop from a
fresh attempt counter.  `func n` is the result of the `n`-th invocation of
the wrapped upstream call. -/
def execute_with_rate_limit (func : ℕ → Except String String) (max_retries : ℕ)
    (now : ℚ) (s : RLState) : ExecTrace :=
  execute_go func max_retries max_retries 0 none now s 0 []

/-- `reset_statistics` (lines 185-193): zero the four counters and the
circuit-breaker state; the request windows are untouched. -/
def reset_statistics (s : RLState) : RLState :=
  { s with
    total_requests := 0
    successful_requests := 0
    failed_requests := 0
    rate_limited_count := 0
    circuit_breaker_failures := 0
    circuit_breaker_reset_time := none }

example :
    (execute_with_rate_limit (fun _ => .ok "resp") 5 0
      { initRateLimiter with max_requests_per_day := 2, daily_requests := [0, 0] }).funcCalls
      = 0 := by
  have hclass : isRateLimitErrorRL "Daily rate limit exceeded. Please try again tomorrow." = true := by
    decide
  norm_num [execute_with_rate_limit, execute_go, wait_if_needed, clean_request_history,
    is_circuit_open, waitAfterCircuit, hclass, record_request,
    calculate_backoff_delay, initRateLimiter, dateOf, listMin]

/-! ## ServerlessRateLimiter (api/agents/rate_limiter.py)

The serverless variant: same windows, a boolean circuit-breaker flag, and a
single-shot `execute_with_rate_limit` without retries. -/

/-- Mutable state of `ServerlessRateLimiter` (api/agents/rate_limiter.py
lines 14-27).  `circuit_breaker_failures` is the opening threshold
(`Config.CIRCUIT_BREAKER_FAILURES`, default 2). -/
structure SLState where
  minute_requests : List ℚ
  daily_requests : List ℚ
  circuit_breaker_open : Bool
  circuit_breaker_open_time : Option ℚ
  consecutive_failures : ℕ
  max_requests_per_minute : ℕ
  max_requests_per_day : ℕ
  circuit_breaker_failures : ℕ
  circuit_breaker_timeout : ℚ
  sleep_between_requests : ℚ
deriving Repr, DecidableEq

/-- `_cleanup_old_requests` (lines 29-39): minute window keeps the last 60s,
day window the last 24h. -/
def sl_cleanup (now : ℚ) (s : SLState) : SLState :=
  { s with
    minute_requests := s.minute_requests.filter (fun t => decide (now - t < 60))
    daily_requests := s.daily_requests.filter (fun t => decide (now - t < 86400)) }

/-- `_check_circuit_breaker` (lines 41-52): `true` means the breaker is open
right now; once `now - open_time > timeout` the breaker closes and the
failure streak resets. -/
def check_circuit_breaker (now : ℚ) (s : SLState) : Bool × SLState :=
  if !s.circuit_breaker_open then (false, s)
  else if s.circuit_breaker_timeout < now - (s.circuit_breaker_open_time.getD 0) then
    (false, { s with circuit_breaker_open := false, circuit_breaker_open_time := none,
                     consecutive_failures := 0 })
  else (true, s)

/-- `_wait_for_rate_limit` (lines 54-69): wait for the minute window
(threshold `max - 1`), then fail on a day window at `max - 1`. -/
def sl_wait_for_rate_limit (now : ℚ) (s : SLState) : Except String (ℚ × SLState) :=
  let s := sl_cleanup now s
  let (now, s) :=
    if s.max_requests_per_minute - 1 ≤ s.minute_requests.length then
      let oldest := listMin s.minute_requests now
      let w := 60 - (now - oldest) + 1
      if 0 < w then (now + w, sl_cleanup (now + w) s) else (now, s)
    else (now, s)
  if s.max_requests_per_day - 1 ≤ s.daily_requests.length then
    .error "Daily rate limit exceeded"
  else
    .ok (now, s)

/-- Trace of one `ServerlessRateLimiter.execute_with_rate_limit` call. -/
structure SLTrace where
  result : Except String String
  state : SLState
  now : ℚ
  funcCalls : ℕ
deriving Repr

/-- `ServerlessRateLimiter.execute_with_rate_limit` (lines 71-109): breaker
check (raising without invoking the upstream when open), rate-limit wait,
timestamp recording, fixed inter-request sleep, one upstream invocation,
and failure bookkeeping that may open the breaker. -/
def sl_execute_with_rate_limit (func : Except String String) (now : ℚ)
    (s : SLState) : SLTrace :=
  match check_circuit_breaker now s with
  | (true, s) =>
    { result := .error "Circuit breaker is open - too many failures",
      state := s, now := now, funcCalls := 0 }
  | (false, s) =>
    match sl_wait_for_rate_limit now s with
    | .error e => { result := .error e, state := s, now := now, funcCalls := 0 }
    | .ok (now, s) =>
      let s : SLState := { s with
        minute_requests := s.minute_requests ++ [now]
        daily_requests := s.daily_requests ++ [now] }
      let now : ℚ := if 0 < s.sleep_between_requests then now + s.sleep_between_requests else now
      match func with
      | .ok v =>
        { result := .ok v, state := { s with consecutive_failures := 0 },
          now := now, funcCalls := 1 }
      | .error e =>
        let cf := s.consecutive_failures + 1
        let s :=
          if s.circuit_breaker_failures ≤ cf then
            { s with consecutive_failures := cf, circuit_breaker_open := true,
                     circuit_breaker_open_time := some now }
          else { s with consecutive_failures := cf }
        { result := .error e, state := s, now := now, funcCalls := 1 }

/-! ## BatchProcessor._split_into_batches (backend/agents/api_optimizer.py)

Greedy, order-preserving partition of the clause list under an item-count
limit and an estimated-token limit. -/

/-- Token estimate for one clause: `len(clause) // 4` (api_optimizer.py
line 49). -/
def clause_tokens (c : String) : ℕ := c.length / 4

/-- Total token estimate of a batch. -/
def tokenSum (b : List String) : ℕ := (b.map clause_tokens).sum

/-- One iteration of the loop in `_split_into_batches` (lines 47-61): if the
current batch is at the item limit or adding the clause would exceed the
token limit, flush the current batch (when non-empty); then append the
clause to the current batch.  The accumulator is
(finished batches, current batch, current token count). -/
def split_step (maxB maxT : ℕ) (acc : List (List String) × List String × ℕ)
    (clause : String) : List (List String) × List String × ℕ :=
  let (batches, cur, curTok) := acc
  let ct := clause_tokens clause
  let (batches, cur, curTok) :=
    if (maxB ≤ cur.length ∨ maxT < curTok + ct) ∧ cur ≠ [] then
      (batches ++ [cur], ([] : List String), 0)
    else (batches, cur, curTok)
  (batches, cur ++ [clause], curTok + ct)

/-- `_split_into_batches` (lines 41-67): fold the loop body over the clauses
and flush the final non-empty batch. -/
def split_into_batches (maxB maxT : ℕ) (clauses : List String) : List (List String) :=
  let (batches, cur, _) := clauses.foldl (split_step maxB maxT) ([], [], 0)
  if cur ≠ [] then batches ++ [cur] else batches

example : split_into_batches 5 25000 ["a","b","c","d","e","f"] = [["a","b","c","d","e"], ["f"]] := by
  decide
example : split_into_batches 5 2 ["aaaaaaaaaaaa","bb","cc"] = [["aaaaaaaaaaaa"], ["bb","cc"]] := by
  decide

/-! ## Batch response demultiplexing (backend/agents/api_optimizer.py)

`_parse_batch_response` parses one combined upstream response back into
per-clause entries, and `enhanced_batch_analyze_clauses` drives the whole
batch pipeline.  `json.loads` (Python standard library) and the upstream
model call are external to the repository and are taken as parameters:
`jsonLoads` returns `none` where `json.loads` would raise
`JSONDecodeError`, and `upstream i` is the response text of the `i`-th
batch request. -/

/-- The parsed per-clause analysis payload
(`{"risk_level": ..., "analysis": ...}`). -/
structure ClauseAnalysis where
  risk_level : String
  analysis : String
deriving Repr, DecidableEq

/-- One entry of the result mapping: `{"text": ..., "analysis": {...}}`. -/
structure ClauseEntry where
  text : String
  analysis : ClauseAnalysis
deriving Repr, DecidableEq

/-- Python `hay.find(pat, start)` (as `Option`). -/
def pyFindFrom (hay pat : String) (start : ℕ) : Option ℕ :=
  (findSubIdx pat.toList (hay.toList.drop start)).map (· + start)

/-- Python whitespace for `str.strip()`. -/
def isWs (c : Char) : Bool := c == ' ' || c == '\n' || c == '\t' || c == '\r'

/-- Python `str.strip()`. -/
def pyStrip (s : String) : String :=
  String.mk (((s.toList.dropWhile isWs).reverse.dropWhile isWs).reverse)

/-- Python slice `s[start:stop]`. -/
def sliceStr (s : String) (start stop : ℕ) : String :=
  String.mk ((s.toList.drop start).take (stop - start))

/-- Python `s[n:]`. -/
def dropStr (s : String) (n : ℕ) : String := String.mk (s.toList.drop n)

/-- Python `s[:-n]` for `n ≤ len s`. -/
def dropRightStr (s : String) (n : ℕ) : String :=
  String.mk (s.toList.take (s.toList.length - n))

/-- Python `s.startswith(pat)`. -/
def startsWithStr (s pat : String) : Bool := isPrefixOfCh pat.toList s.toList

/-- Python `s.endswith(pat)`. -/
def endsWithStr (s pat : String) : Bool :=
  isPrefixOfCh pat.toList.reverse s.toList.reverse

/-- The loop body of `_parse_batch_response` (api_optimizer.py lines
446-493) for clause number `i` (1-based): locate the `CLAUSE_i_ANALYSIS:`
block, cut it at the next label / code fence / blank line, strip fences,
attempt the JSON parse, and fall back to a synthetic Medium-risk entry when
the label is missing or the JSON does not parse. -/
def parse_one (jsonLoads : String → Option ClauseAnalysis) (response : String)
    (i : ℕ) : String × ClauseEntry :=
  let clause_key := "Clause " ++ toString i
  let text := "Clause " ++ toString i ++ " (batch processed)"
  let pattern := "CLAUSE_" ++ toString i ++ "_ANALYSIS:"
  let notFoundEntry : ClauseEntry :=
    { text := text
      analysis := { risk_level := "Medium"
                    analysis := "Batch analysis completed - review recommended" } }
  let badJsonEntry : ClauseEntry :=
    { text := text
      analysis := { risk_level := "Medium"
                    analysis := "Batch processing - manual review recommended" } }
  match findSubIdx pattern.toList response.toList with
  | none => (clause_key, notFoundEntry)
  | some idx =>
    let start := idx + pattern.length
    let endPatterns := ["CLAUSE_" ++ toString (i + 1) ++ "_ANALYSIS:", "```", "\n\n"]
    let endIdx := endPatterns.foldl (fun acc ep =>
      match pyFindFrom response ep start with
      | some t => if t < acc then t else acc
      | none => acc) response.length
    let json_text := pyStrip (sliceStr response start endIdx)
    let json_text := if startsWithStr json_text "```json" then dropStr json_text 7 else json_text
    let json_text := if endsWithStr json_text "```" then dropRightStr json_text 3 else json_text
    match jsonLoads (pyStrip json_text) with
    | some data => (clause_key, { text := text, analysis := data })
    | none => (clause_key, badJsonEntry)

/-- `_parse_batch_response` (lines 440-507): one entry per expected clause
number `1..num_clauses`, in an insertion-ordered mapping modelled as an
association list. -/
def parse_batch_response (jsonLoads : String → Option ClauseAnalysis)
    (response : String) (num_clauses : ℕ) : List (String × ClauseEntry) :=
  (List.range num_clauses).map (fun j => parse_one jsonLoads response (j + 1))

/-- Python `dict.update` on insertion-ordered mappings: existing keys keep
their position and take the new value, genuinely new keys are appended. -/
def dict_update (old new : List (String × ClauseEntry)) : List (String × ClauseEntry) :=
  (old.map (fun kv =>
    match new.find? (fun kv2 => kv2.1 == kv.1) with
    | some kv2 => (kv.1, kv2.2)
    | none => kv)) ++
  new.filter (fun kv2 => !(old.any (fun kv => kv.1 == kv2.1)))

/-- Trace of one `enhanced_batch_analyze_clauses` call: the merged result
mapping, the number of upstream batch requests made, and the total
optimizer-level sleep (seconds). -/
structure BatchTrace where
  results : List (String × ClauseEntry)
  upstreamCalls : ℕ
  sleepTotal : ℚ
deriving Repr

/-- `enhanced_batch_analyze_clauses` (lines 359-396) composed with
`BatchProcessor.add_to_batch_queue` / `process_next_batch` /
`_process_batch_with_sleep` (lines 23-92, 268-312) on the path where every
batch request succeeds: an empty input returns `{}` immediately; otherwise
the clauses are split by the global `BatchProcessor` (max 5 clauses /
25000 estimated tokens per batch) and each batch is processed sequentially
— sleep `BATCH_PROCESSING_SLEEP` (default 10s), issue one upstream request,
demultiplex with `_parse_batch_response`, merge via `all_results.update(...)`,
then sleep `INTER_BATCH_SLEEP` (default 15s).  Prompt compression
(`_compress_text`) only shapes the prompt text, never the result keys, and
is not modelled. -/
def enhanced_batch_analyze_clauses (jsonLoads : String → Option ClauseAnalysis)
    (upstream : ℕ → String) (clauses : List String) : BatchTrace :=
  if clauses.isEmpty then { results := [], upstreamCalls := 0, sleepTotal := 0 }
  else
    let batches := split_into_batches 5 25000 clauses
    let step := fun (acc : BatchTrace × ℕ) (batch : List String) =>
      let (tr, i) := acc
      let response := upstream i
      let r := parse_batch_response jsonLoads response batch.length
      ({ results := dict_update tr.results r
         upstreamCalls := tr.upstreamCalls + 1
         sleepTotal := tr.sleepTotal + 10 + 15 }, i + 1)
    (batches.foldl step ({ results := [], upstreamCalls := 0, sleepTotal := 0 }, 0)).1

example :
    ((parse_batch_response (fun _ => none) "" 3).map Prod.fst)
      = ["Clause 1", "Clause 2", "Clause 3"] := by decide
example :
    (enhanced_batch_analyze_clauses (fun _ => none) (fun _ => "")
      ["aaaa","bbbb","cccc","dddd","eeee","ffff"]).results.length = 5 := by decide

/-! ## Claims about the batch entry point (C1, C9) -/

/-- Claim C9: called with an empty item list, `enhanced_batch_analyze_clauses`
returns the empty mapping without invoking the upstream call and without
sleeping — for every JSON parser and every upstream response function. -/
theorem enhanced_batch_empty (jsonLoads : String → Option ClauseAnalysis)
    (upstream : ℕ → String) :
    enhanced_batch_analyze_clauses jsonLoads upstream [] =
      { results := [], upstreamCalls := 0, sleepTotal := 0 } := rfl

/-- Claim C1, evaluated at the failing input: six 4-character clauses split
into batches of 5 and 1; the second batch re-uses the key "Clause 1", so the
final mapping has only 5 entries instead of 6 — even though every position
inside each batch received its (here: fallback) entry.  This contradicts the
claimed batch-result completeness. -/
theorem enhanced_batch_six_clauses_loses_entry :
    (["aaaa", "bbbb", "cccc", "dddd", "eeee", "ffff"] : List String).length = 6 ∧
    ((enhanced_batch_analyze_clauses (fun _ => none) (fun _ => "")
        ["aaaa", "bbbb", "cccc", "dddd", "eeee", "ffff"]).results.map Prod.fst)
      = ["Clause 1", "Clause 2", "Clause 3", "Clause 4", "Clause 5"] ∧
    (enhanced_batch_analyze_clauses (fun _ => none) (fun _ => "")
        ["aaaa", "bbbb", "cccc", "dddd", "eeee", "ffff"]).results.length = 5 := by
  refine ⟨by decide, by decide, by decide⟩

/-! ## Claims about the adaptive backoff controller (C6, C7, C8) -/

/-- Claim C8: `should_pause_requests` returns
`(true, min (60 * 2^(consecutive_failures - 5)) 900)` when the failure
streak is at least 5; otherwise `(true, 120)` when at least 3 rate-limit
events fall in the last 60 seconds; otherwise `(false, 0)`. -/
theorem should_pause_requests_spec (s : RecoveryState) (now : ℚ) :
    (5 ≤ s.consecutive_failures →
      should_pause_requests now s
        = (true, min (60 * 2 ^ (s.consecutive_failures - 5)) 900)) ∧
    (s.consecutive_failures < 5 →
      3 ≤ (s.rate_limit_events.filter (fun e => decide (now - e.timestamp < 60))).length →
      should_pause_requests now s = (true, 120)) ∧
    (s.consecutive_failures < 5 →
      (s.rate_limit_events.filter (fun e => decide (now - e.timestamp < 60))).length < 3 →
      should_pause_requests now s = (false, 0)) := by
  refine ⟨fun h5 => ?_, fun h5 h3 => ?_, fun h5 h3 => ?_⟩
  · simp [should_pause_requests, if_pos h5]
  · simp [should_pause_requests, if_neg (not_le_of_lt h5), if_pos h3]
  · simp [should_pause_requests, if_neg (not_le_of_lt h5), if_neg (not_le_of_lt h3)]

/-- Witness for C8: all three branches of `should_pause_requests_spec` at
concrete states. -/
theorem should_pause_requests_spec_witness :
    should_pause_requests 0 { initRecovery with consecutive_failures := 7 }
      = (true, min (60 * 2 ^ (7 - 5)) 900) ∧
    should_pause_requests 0 { initRecovery with rate_limit_events :=
        [{ timestamp := 0, error_message := "a", retry_after := none, quota_type := "unknown" },
         { timestamp := 0, error_message := "b", retry_after := none, quota_type := "unknown" },
         { timestamp := 0, error_message := "c", retry_after := none, quota_type := "unknown" }] }
      = (true, 120) ∧
    should_pause_requests 0 initRecovery = (false, 0) := by
  refine ⟨(should_pause_requests_spec _ 0).1 (by norm_num [initRecovery]),
    (should_pause_requests_spec _ 0).2.1 (by norm_num [initRecovery]) ?_,
    (should_pause_requests_spec _ 0).2.2 (by norm_num [initRecovery]) ?_⟩
  · norm_num [initRecovery]
  · norm_num [initRecovery]

/-- `_decrease_adaptive_delay` only touches the delay field. -/
theorem decrease_frame (s : RecoveryState) :
    (decrease_adaptive_delay s).consecutive_successes = s.consecutive_successes ∧
    (decrease_adaptive_delay s).consecutive_failures = s.consecutive_failures ∧
    (decrease_adaptive_delay s).last_success_time = s.last_success_time := by
  simp only [decrease_adaptive_delay]
  split <;> exact ⟨rfl, rfl, rfl⟩

/-- On states with `0 ≤ min ≤ delay`, the guarded 10% decrease agrees with
the unguarded clamped formula (at `delay = min` both sides are `min`). -/
theorem decrease_delay_eq (s : RecoveryState) (h0 : 0 ≤ s.min_adaptive_delay)
    (h : s.min_adaptive_delay ≤ s.adaptive_delay) :
    (decrease_adaptive_delay s).adaptive_delay
      = max (s.adaptive_delay * (9/10)) s.min_adaptive_delay := by
  simp only [decrease_adaptive_delay]
  split
  · rfl
  · rename_i hnd
    have heq : s.adaptive_delay = s.min_adaptive_delay := le_antisymm (not_lt.mp hnd) h
    rw [heq, max_eq_right]
    nlinarith

/-- Claim C6: `record_rate_limit` appends a classified `RateLimitEvent`
(keeping the last 100), increments the failure streak, resets the success
streak, and multiplies the delay by `1.5 + 0.2 * consecutive_failures`
(with the incremented streak) clamped to `max_adaptive_delay`;
`record_success` increments the success streak, resets the failure streak,
stamps `last_success_time`, and exactly when the success streak reaches at
least 3 decreases the delay by 10% clamped to `min_adaptive_delay`.  The
hypotheses pin the delay at or above the (nonnegative) minimum, which holds
in every reachable state. -/
theorem record_mutators_spec (s : RecoveryState) (now : ℚ) (msg : String)
    (ra : Option ℕ) (hmin0 : 0 ≤ s.min_adaptive_delay)
    (hmin : s.min_adaptive_delay ≤ s.adaptive_delay) :
    (record_rate_limit now msg ra s).rate_limit_events
      = trimEvents (s.rate_limit_events ++
          [{ timestamp := now, error_message := msg, retry_after := ra,
             quota_type := detect_quota_type msg }]) ∧
    (record_rate_limit now msg ra s).consecutive_failures
      = s.consecutive_failures + 1 ∧
    (record_rate_limit now msg ra s).consecutive_successes = 0 ∧
    (record_rate_limit now msg ra s).adaptive_delay
      = min (s.adaptive_delay * (3/2 + ((s.consecutive_failures : ℚ) + 1) * (1/5)))
          s.max_adaptive_delay ∧
    (record_success now s).consecutive_successes = s.consecutive_successes + 1 ∧
    (record_success now s).consecutive_failures = 0 ∧
    (record_success now s).last_success_time = now ∧
    (record_success now s).adaptive_delay
      = (if 3 ≤ s.consecutive_successes + 1
         then max (s.adaptive_delay * (9/10)) s.min_adaptive_delay
         else s.adaptive_delay) := by
  refine ⟨rfl, rfl, rfl, ?_, ?_, ?_, ?_, ?_⟩
  · simp only [record_rate_limit, increase_adaptive_delay]
    push_cast
    ring_nf
  · simp only [record_success]
    split
    · exact (decrease_frame _).1
    · rfl
  · simp only [record_success]
    split
    · exact (decrease_frame _).2.1
    · rfl
  · simp only [record_success]
    split
    · exact (decrease_frame _).2.2
    · rfl
  · simp only [record_success]
    split
    · exact decrease_delay_eq _ hmin0 hmin
    · rfl

/-- Witness for C6: `record_mutators_spec` applied to the initial controller
state (delay 5, clamp range [2, 300]). -/
theorem record_mutators_spec_witness :
    (record_rate_limit 1 "boom" none initRecovery).consecutive_failures = 1 ∧
    (record_success 1 initRecovery).consecutive_successes = 1 := by
  have h := record_mutators_spec initRecovery 1 "boom" none
    (by norm_num [initRecovery]) (by norm_num [initRecovery])
  exact ⟨by simpa [initRecovery] using h.2.1, by simpa [initRecovery] using h.2.2.2.2.1⟩

/-- One operation on the controller: an upstream failure recorded through
`record_rate_limit`, or a success recorded through `record_success`. -/
inductive ROp where
  | fail (now : ℚ) (msg : String) (retry_after : Option ℕ)
  | succ (now : ℚ)

/-- Apply one operation to a controller state. -/
def rstep (s : RecoveryState) : ROp → RecoveryState
  | .fail now msg ra => record_rate_limit now msg ra s
  | .succ now => record_success now s

/-- Run a sequence of operations from the initial controller state. -/
def runOps (ops : List ROp) : RecoveryState :=
  ops.foldl rstep initRecovery

/-- The clamp-range invariant maintained by the controller: the clamp bounds
are the construction-time constants and the delay lies between them. -/
def RInv (s : RecoveryState) : Prop :=
  s.min_adaptive_delay = 2 ∧ s.max_adaptive_delay = 300 ∧
  2 ≤ s.adaptive_delay ∧ s.adaptive_delay ≤ 300

theorem rinv_init : RInv initRecovery := by
  refine ⟨rfl, rfl, ?_, ?_⟩ <;> norm_num [initRecovery]

/-- A recorded failure multiplies the delay by a factor ≥ 3/2, so within the
clamp range it can only move the delay upward. -/
theorem rinv_record_rate_limit (s : RecoveryState) (now : ℚ) (msg : String)
    (ra : Option ℕ) (h : RInv s) :
    RInv (record_rate_limit now msg ra s) ∧
    s.adaptive_delay ≤ (record_rate_limit now msg ra s).adaptive_delay := by
  obtain ⟨hmin, hmax, hlo, hhi⟩ := h
  have hm : (1 : ℚ) ≤ 3/2 + ((s.consecutive_failures : ℚ) + 1) * (1/5) := by
    have : (0 : ℚ) ≤ (s.consecutive_failures : ℚ) := Nat.cast_nonneg _
    nlinarith
  have hdpos : (0 : ℚ) ≤ s.adaptive_delay := by linarith
  have hle : s.adaptive_delay
      ≤ s.adaptive_delay * (3/2 + ((s.consecutive_failures : ℚ) + 1) * (1/5)) := by
    nlinarith
  have hdelay : (record_rate_limit now msg ra s).adaptive_delay
      = min (s.adaptive_delay * (3/2 + ((s.consecutive_failures : ℚ) + 1) * (1/5)))
          s.max_adaptive_delay := by
    simp only [record_rate_limit, increase_adaptive_delay]
    push_cast
    ring_nf
  refine ⟨⟨hmin, hmax, ?_, ?_⟩, ?_⟩
  · rw [hdelay, hmax]
    exact le_min (by linarith) (by norm_num)
  · rw [hdelay, hmax]
    exact min_le_right _ _
  · rw [hdelay, hmax]
    exact le_min (by linarith) (by linarith)

/-- A recorded success keeps the delay inside the clamp range, and can lower
it only when the success streak reaches 3. -/
theorem rinv_record_success (s : RecoveryState) (now : ℚ) (h : RInv s) :
    RInv (record_success now s) ∧
    ((record_success now s).adaptive_delay < s.adaptive_delay →
      3 ≤ s.consecutive_successes + 1) := by
  obtain ⟨hmin, hmax, hlo, hhi⟩ := h
  have hbounds : 2 ≤ (record_success now s).adaptive_delay ∧
      (record_success now s).adaptive_delay ≤ 300 := by
    simp only [record_success]
    split
    · simp only [decrease_adaptive_delay]
      split
      · constructor
        · rw [hmin]
          exact le_max_right _ _
        · refine max_le ?_ (by rw [hmin]; norm_num)
          nlinarith
      · exact ⟨hlo, hhi⟩
    · exact ⟨hlo, hhi⟩
  have hframe : (record_success now s).min_adaptive_delay = s.min_adaptive_delay ∧
      (record_success now s).max_adaptive_delay = s.max_adaptive_delay := by
    simp only [record_success]
    split
    · simp only [decrease_adaptive_delay]
      split <;> exact ⟨rfl, rfl⟩
    · exact ⟨rfl, rfl⟩
  refine ⟨⟨hframe.1.trans hmin, hframe.2.trans hmax, hbounds.1, hbounds.2⟩, ?_⟩
  intro hdec
  by_contra hlt
  have : (record_success now s).adaptive_delay = s.adaptive_delay := by
    simp only [record_success]
    rw [if_neg]
    simpa using hlt
  rw [this] at hdec
  exact lt_irrefl _ hdec

theorem rinv_rstep (s : RecoveryState) (op : ROp) (h : RInv s) : RInv (rstep s op) := by
  cases op with
  | fail now msg ra => exact (rinv_record_rate_limit s now msg ra h).1
  | succ now => exact (rinv_record_success s now h).1

theorem rinv_foldl (ops : List ROp) : ∀ s : RecoveryState, RInv s → RInv (ops.foldl rstep s) := by
  induction ops with
  | nil => intro s h; exact h
  | cons op rest ih => intro s h; exact ih (rstep s op) (rinv_rstep s op h)

theorem rinv_runOps (ops : List ROp) : RInv (runOps ops) :=
  rinv_foldl ops initRecovery rinv_init

/-- Claim C7: in every state reachable by `record_rate_limit` /
`record_success` operations from the initial controller state, the adaptive
delay stays within `[min_delay, max_delay] = [2, 300]`; a recorded failure
never decreases it; and a recorded success decreases it only when it brings
the success streak to at least 3, never below the minimum. -/
theorem adaptive_delay_reachable_invariant (ops : List ROp) (now : ℚ)
    (msg : String) (ra : Option ℕ) :
    (2 ≤ (runOps ops).adaptive_delay ∧ (runOps ops).adaptive_delay ≤ 300) ∧
    (runOps ops).adaptive_delay
      ≤ (record_rate_limit now msg ra (runOps ops)).adaptive_delay ∧
    ((record_success now (runOps ops)).adaptive_delay < (runOps ops).adaptive_delay →
      3 ≤ (runOps ops).consecutive_successes + 1) ∧
    2 ≤ (record_success now (runOps ops)).adaptive_delay := by
  have hinv := rinv_runOps ops
  refine ⟨⟨hinv.2.2.1, hinv.2.2.2⟩, ?_, ?_, ?_⟩
  · exact (rinv_record_rate_limit _ now msg ra hinv).2
  · exact (rinv_record_success _ now hinv).2
  · exact ((rinv_record_success _ now hinv).1).2.2.1

/-- Witness for C7: the invariant evaluated after a failure and after three
successes — the third success does shrink the delay (from 5 to 4.5, still
above the minimum 2). -/
theorem adaptive_delay_reachable_invariant_witness :
    (2 ≤ (runOps [ROp.fail 0 "429" none]).adaptive_delay ∧
      (runOps [ROp.fail 0 "429" none]).adaptive_delay ≤ 300) ∧
    3 ≤ (runOps [ROp.succ 0, ROp.succ 0]).consecutive_successes + 1 := by
  refine ⟨(adaptive_delay_reachable_invariant [ROp.fail 0 "429" none] 0 "x" none).1, ?_⟩
  refine (adaptive_delay_reachable_invariant [ROp.succ 0, ROp.succ 0] 0 "x" none).2.2.1 ?_
  norm_num [runOps, rstep, record_success, decrease_adaptive_delay, initRecovery]

/-! ## Claim about the batch partition (C5) -/

/-- A finished batch is non-empty, within the item limit, and within the
token budget unless it is a single clause that alone exceeds the budget. -/
def goodBatch (maxB maxT : ℕ) (b : List String) : Prop :=
  b ≠ [] ∧ b.length ≤ maxB ∧
  (tokenSum b ≤ maxT ∨ ∃ c, b = [c] ∧ maxT < clause_tokens c)

/-- Loop invariant of `_split_into_batches`: all finished batches are good,
the current batch respects the item limit, the running token counter is
exactly the current batch's token estimate, and the current batch satisfies
the token budget or is a lone oversized clause. -/
def SplitInv (maxB maxT : ℕ) (acc : List (List String) × List String × ℕ) : Prop :=
  (∀ b ∈ acc.1, goodBatch maxB maxT b) ∧
  acc.2.1.length ≤ maxB ∧
  acc.2.2 = tokenSum acc.2.1 ∧
  (tokenSum acc.2.1 ≤ maxT ∨ ∃ c, acc.2.1 = [c] ∧ maxT < clause_tokens c)

theorem tokenSum_append_single (l : List String) (c : String) :
    tokenSum (l ++ [c]) = tokenSum l + clause_tokens c := by
  simp [tokenSum]

theorem split_step_inv (maxB maxT : ℕ) (hB : 0 < maxB)
    (acc : List (List String) × List String × ℕ) (clause : String)
    (h : SplitInv maxB maxT acc) :
    SplitInv maxB maxT (split_step maxB maxT acc clause) := by
  obtain ⟨batches, cur, curTok⟩ := acc
  obtain ⟨hb, hlen, htok, hprop⟩ := h
  simp only [split_step]
  split
  · rename_i hcond
    refine ⟨?_, by simpa using hB, by simp [tokenSum], ?_⟩
    · intro b hbmem
      rcases List.mem_append.mp hbmem with hmem | hmem
      · exact hb b hmem
      · have hbc : b = cur := by simpa using hmem
        subst hbc
        exact ⟨hcond.2, hlen, hprop⟩
    · by_cases hct : clause_tokens clause ≤ maxT
      · left
        simpa [tokenSum] using hct
      · right
        exact ⟨clause, by simp, by omega⟩
  · rename_i hcond
    by_cases hc : cur = []
    · subst hc
      refine ⟨hb, by simpa using hB, ?_, ?_⟩
      · have h0 : curTok = 0 := by simpa [tokenSum] using htok
        simp [tokenSum, h0]
      · by_cases hct : clause_tokens clause ≤ maxT
        · left
          simpa [tokenSum] using hct
        · right
          exact ⟨clause, by simp, by omega⟩
    · have hA : ¬(maxB ≤ cur.length ∨ maxT < curTok + clause_tokens clause) :=
        fun hA => hcond ⟨hA, hc⟩
      push_neg at hA
      refine ⟨hb, ?_, ?_, ?_⟩
      · have := hA.1
        simp only [List.length_append, List.length_singleton]
        omega
      · rw [tokenSum_append_single, htok]
      · left
        rw [tokenSum_append_single, ← htok]
        exact hA.2

theorem split_foldl_inv (maxB maxT : ℕ) (hB : 0 < maxB) (clauses : List String) :
    ∀ acc, SplitInv maxB maxT acc →
      SplitInv maxB maxT (clauses.foldl (split_step maxB maxT) acc) := by
  induction clauses with
  | nil => intro acc h; exact h
  | cons c cs ih =>
    intro acc h
    exact ih (split_step maxB maxT acc c) (split_step_inv maxB maxT hB acc c h)

theorem split_foldl_join (maxB maxT : ℕ) (clauses : List String) :
    ∀ acc : List (List String) × List String × ℕ,
      (clauses.foldl (split_step maxB maxT) acc).1.flatten
          ++ (clauses.foldl (split_step maxB maxT) acc).2.1
        = acc.1.flatten ++ acc.2.1 ++ clauses := by
  induction clauses with
  | nil => intro acc; simp
  | cons c cs ih =>
    intro acc
    rw [List.foldl_cons, ih]
    have hstep : (split_step maxB maxT acc c).1.flatten ++ (split_step maxB maxT acc c).2.1
        = acc.1.flatten ++ (acc.2.1 ++ [c]) := by
      obtain ⟨batches, cur, tok⟩ := acc
      simp only [split_step]
      split
      · simp
      · simp
    rw [hstep]
    simp

/-- Claim C5: for every input list (and positive item limit), the partition
produced by `_split_into_batches` concatenates back to the input in order
(so the batch sizes sum to the input length), no batch exceeds the item
limit, and no batch exceeds the token budget unless it is a single clause
whose own estimate exceeds the budget. -/
theorem split_into_batches_spec (maxB maxT : ℕ) (hB : 0 < maxB)
    (clauses : List String) :
    (split_into_batches maxB maxT clauses).flatten = clauses ∧
    ((split_into_batches maxB maxT clauses).map List.length).sum = clauses.length ∧
    (∀ b ∈ split_into_batches maxB maxT clauses, b.length ≤ maxB) ∧
    (∀ b ∈ split_into_batches maxB maxT clauses,
      tokenSum b ≤ maxT ∨ ∃ c, b = [c] ∧ maxT < clause_tokens c) := by
  have hinv := split_foldl_inv maxB maxT hB clauses ([], [], 0)
    ⟨by simp, by simp, rfl, Or.inl (by simp [tokenSum])⟩
  have hjoin := split_foldl_join maxB maxT clauses ([], [], 0)
  simp only [List.flatten_nil, List.nil_append] at hjoin
  set p := clauses.foldl (split_step maxB maxT) ([], [], 0) with hp
  have hsplit : split_into_batches maxB maxT clauses
      = if p.2.1 ≠ [] then p.1 ++ [p.2.1] else p.1 := rfl
  obtain ⟨hgood, hlen, _, hprop⟩ := hinv
  have hjoin2 : (split_into_batches maxB maxT clauses).flatten = clauses := by
    rw [hsplit]
    by_cases hc : p.2.1 = []
    · rw [if_neg (by simpa using hc)]
      rw [hc] at hjoin
      simpa using hjoin
    · rw [if_pos hc]
      rw [List.flatten_append]
      simpa using hjoin
  refine ⟨hjoin2, ?_, ?_, ?_⟩
  · rw [← List.length_flatten, hjoin2]
  · intro b hbmem
    rw [hsplit] at hbmem
    by_cases hc : p.2.1 = []
    · rw [if_neg (by simpa using hc)] at hbmem
      exact (hgood b hbmem).2.1
    · rw [if_pos hc] at hbmem
      rcases List.mem_append.mp hbmem with hmem | hmem
      · exact (hgood b hmem).2.1
      · have hbc : b = p.2.1 := by simpa using hmem
        subst hbc
        exact hlen
  · intro b hbmem
    rw [hsplit] at hbmem
    by_cases hc : p.2.1 = []
    · rw [if_neg (by simpa using hc)] at hbmem
      exact (hgood b hbmem).2.2
    · rw [if_pos hc] at hbmem
      rcases List.mem_append.mp hbmem with hmem | hmem
      · exact (hgood b hmem).2.2
      · have hbc : b = p.2.1 := by simpa using hmem
        subst hbc
        exact hprop

/-- Witness for C5: the partition invariants at the production configuration
(5 items / 25000 tokens per batch) on six clauses. -/
theorem split_into_batches_spec_witness :
    0 < 5 ∧ (split_into_batches 5 25000 ["aaaa", "bbbb", "cccc", "dddd", "eeee", "ffff"]).flatten
      = ["aaaa", "bbbb", "cccc", "dddd", "eeee", "ffff"] :=
  ⟨by decide, (split_into_batches_spec 5 25000 (by decide)
    ["aaaa", "bbbb", "cccc", "dddd", "eeee", "ffff"]).1⟩

/-! ## GeminiAPIOptimizer._retry_with_backoff (backend/agents/api_optimizer.py)

The request executor's retry loop.  `self.rate_queue.execute_request(func)`
(api_optimizer.py lines 110-173) returns `func`'s value and re-raises
`func`'s exception unchanged — its sleeps and bookkeeping never alter the
result or the exception — so the queue-wrapped call is abstracted into
`call`, with `call n` the outcome of the `n`-th invocation.  The two random
jitter terms (`random.uniform(0.1, 0.5) * exponential_delay` and
`random.uniform(0, 1)`) only lengthen sleeps and are passed in as explicit
functions of the attempt index. -/

/-- The rate-limit classifier of `_retry_with_backoff` (lines 216-220). -/
def optIsRateLimit (e : String) : Bool :=
  let l := strLower e
  containsSub l "429" || containsSub l "rate limit" || containsSub l "quota" ||
    containsSub l "too many requests" || containsSub l "resource exhausted" ||
    containsSub l "rate_limit_exceeded"

/-- Trace of a `_retry_with_backoff` call: the result, the number of
invocations of the wrapped call, and the final instant. -/
structure RetryTrace where
  result : Except String String
  calls : ℕ
  now : ℚ
deriving Repr

/-- The loop of `_retry_with_backoff` (lines 205-245), with `remaining`
iterations left and zero-based `attempt = max_retries - remaining`.
Rate-limit failures back off exponentially (base 2s, cap 120s, multiplicative
jitter `jr`) while retries remain, then raise the persistent-rate-limit
message; other failures retry with a `1 + jo attempt` second delay whenever
`attempt < 2`, and otherwise re-raise the error unchanged. -/
def retry_go (call : ℕ → Except String String) (jr jo : ℕ → ℚ) (max_retries : ℕ) :
    ℕ → ℕ → ℚ → ℕ → RetryTrace
  | 0, _, now, calls =>
    { result := .error ("Max retries (" ++ toString max_retries ++ ") exceeded")
      calls := calls, now := now }
  | remaining + 1, attempt, now, calls =>
    match call calls with
    | .ok v => { result := .ok v, calls := calls + 1, now := now }
    | .error e =>
      if optIsRateLimit e || containsSub (strLower e) "quota" then
        if 0 < remaining then
          let expd := min ((2 : ℚ) * 2 ^ attempt) 120
          retry_go call jr jo max_retries remaining (attempt + 1)
            (now + expd + jr attempt * expd) (calls + 1)
        else
          { result := .error ("Persistent rate limiting after " ++ toString max_retries ++
              " attempts. Please wait before retrying.")
            calls := calls + 1, now := now }
      else
        if attempt < 2 then
          retry_go call jr jo max_retries remaining (attempt + 1)
            (now + 1 + jo attempt) (calls + 1)
        else
          { result := .error e, calls := calls + 1, now := now }

/-- `_retry_with_backoff` (lines 205-245): run the loop from attempt 0. -/
def retry_with_backoff (call : ℕ → Except String String) (jr jo : ℕ → ℚ)
    (max_retries : ℕ) (now : ℚ) : RetryTrace :=
  retry_go call jr jo max_retries max_retries 0 now 0

/-! ## Claims C2, C3, C4, C10 -/

/-- A limiter state whose day window is at capacity (limit 2, two records
today at instant 0). -/
def dailyFullState : RLState :=
  { initRateLimiter with max_requests_per_day := 2, daily_requests := [0, 0] }

/-- A limiter state whose circuit breaker is engaged: failures at the
threshold (5) and `reset_time` 30 seconds in the future of instant 0. -/
def openBreakerState : RLState :=
  { initRateLimiter with circuit_breaker_failures := 5,
                         circuit_breaker_reset_time := some 30 }

/-- Claim C2, evaluated at a full day window: the daily-limit exception
message contains "rate limit", so `execute_with_rate_limit`'s keyword
classifier treats it as a retryable rate-limit error.  The call makes 5
admission attempts (never invoking the upstream), counts 5 rate-limit hits,
and finally surfaces the *wrapped* retries-exhausted error instead of the
original daily-quota error — contradicting "not retried / surfaced
unchanged". -/
theorem daily_quota_error_is_retried :
    (execute_with_rate_limit (fun _ => .ok "resp") 5 0 dailyFullState).funcCalls = 0 ∧
    (execute_with_rate_limit (fun _ => .ok "resp") 5 0 dailyFullState).state.rate_limited_count
      = 5 ∧
    (execute_with_rate_limit (fun _ => .ok "resp") 5 0 dailyFullState).result
      = .error ("Rate limit exceeded after 5 attempts: " ++
          "Daily rate limit exceeded. Please try again tomorrow.") := by
  have hclass :
      isRateLimitErrorRL "Daily rate limit exceeded. Please try again tomorrow." = true := by
    decide
  refine ⟨?_, ?_, ?_⟩
  · norm_num [execute_with_rate_limit, execute_go, wait_if_needed, clean_request_history,
      is_circuit_open, waitAfterCircuit, hclass, record_request, calculate_backoff_delay,
      dailyFullState, initRateLimiter, dateOf, listMin]
  · norm_num [execute_with_rate_limit, execute_go, wait_if_needed, clean_request_history,
      is_circuit_open, waitAfterCircuit, hclass, record_request, calculate_backoff_delay,
      dailyFullState, initRateLimiter, dateOf, listMin]
  · norm_num [execute_with_rate_limit, execute_go, wait_if_needed, clean_request_history,
      is_circuit_open, waitAfterCircuit, hclass, record_request, calculate_backoff_delay,
      dailyFullState, initRateLimiter, dateOf, listMin]
    decide

/-- Claim C4, evaluated at an always-failing non-rate-limit upstream: with
the default-style budget of 5 attempts, the loop guard `attempt < 2` lets
the call be retried twice — three invocations in total, not "at most one
retry" as the adjacent source comment and the spec state.  The error is
re-raised unchanged after the last attempt. -/
theorem nonratelimit_retried_twice :
    (retry_with_backoff (fun _ => .error "connection reset") (fun _ => 0) (fun _ => 0)
        5 0).calls = 3 ∧
    (retry_with_backoff (fun _ => .error "connection reset") (fun _ => 0) (fun _ => 0)
        5 0).result = .error "connection reset" := by
  have hclass : optIsRateLimit "connection reset" = false := by decide
  have hquota : containsSub (strLower "connection reset") "quota" = false := by decide
  refine ⟨?_, ?_⟩ <;>
    norm_num [retry_with_backoff, retry_go, hclass, hquota]

/-- Claim C3 counterexample: with the backend limiter's breaker engaged
(failures 5 = threshold, `reset_time = 30`, current instant 0 < 30) and a
succeeding upstream, `execute_with_rate_limit` does *not* return an error —
it sleeps out the breaker inside `_wait_if_needed` and then succeeds, so the
claimed "returns an error immediately carrying the remaining wait" is false
on this code. -/
theorem circuit_open_counterexample :
    openBreakerState.circuit_breaker_threshold ≤ openBreakerState.circuit_breaker_failures ∧
    openBreakerState.circuit_breaker_reset_time = some 30 ∧ ((0 : ℚ) < 30) ∧
    (execute_with_rate_limit (fun _ => .ok "resp") 5 0 openBreakerState).result
      = .ok "resp" := by
  refine ⟨by norm_num [openBreakerState, initRateLimiter], rfl, by norm_num, ?_⟩
  norm_num [execute_with_rate_limit, execute_go, wait_if_needed, clean_request_history,
    is_circuit_open, waitAfterCircuit, record_request, openBreakerState, initRateLimiter,
    dateOf, listMin]

/-- Claim C3 (amended): while a breaker is open and the current instant is
before `reopen_at`, the serverless executor raises a circuit-open error
immediately — whose message does not carry the remaining wait — and never
invokes the upstream; the backend limiter instead sleeps the remaining
`reopen_at - now` inside `_wait_if_needed` and only then invokes the
upstream, exactly once, at instant `reopen_at` (so the upstream is never
invoked before `reopen_at`). -/
theorem circuit_open_fencing (f : Except String String) (now t : ℚ) (sl : SLState)
    (hopen : sl.circuit_breaker_open = true)
    (ht : sl.circuit_breaker_open_time = some t)
    (hwin : now - t ≤ sl.circuit_breaker_timeout)
    (g : ℕ → Except String String) (v : String) (hg : g 0 = .ok v)
    (b : RLState) (n r : ℚ) (mr : ℕ)
    (hfail : b.circuit_breaker_threshold ≤ b.circuit_breaker_failures)
    (hr : b.circuit_breaker_reset_time = some r) (hn : n < r) :
    ((sl_execute_with_rate_limit f now sl).result
        = .error "Circuit breaker is open - too many failures" ∧
      (sl_execute_with_rate_limit f now sl).funcCalls = 0) ∧
    ((execute_with_rate_limit g (mr + 1) n b).result = .ok v ∧
      (execute_with_rate_limit g (mr + 1) n b).funcCalls = 1 ∧
      (execute_with_rate_limit g (mr + 1) n b).callTimes = [r]) := by
  constructor
  · have hcheck : check_circuit_breaker now sl = (true, sl) := by
      rw [check_circuit_breaker, ht]
      simp only [hopen, Bool.not_true, Bool.false_eq_true, if_false, Option.getD_some]
      rw [if_neg (not_lt.mpr hwin)]
    rw [sl_execute_with_rate_limit, hcheck]
    exact ⟨rfl, rfl⟩
  · have hwait : wait_if_needed n b
        = (.ok (r, true), clean_request_history n b) := by
      rw [wait_if_needed]
      have hopen2 : is_circuit_open n (clean_request_history n b)
          = (true, clean_request_history n b) := by
        rw [is_circuit_open]
        simp only [clean_request_history, hfail, if_true, hr, if_pos hn]
      rw [hopen2]
      simp only [clean_request_history, hr, Option.getD_some]
    rw [execute_with_rate_limit, execute_go, hwait]
    simp [hg]

/-- A serverless limiter state whose breaker opened at instant 100 with a
300s timeout. -/
def openSLState : SLState :=
  { minute_requests := []
    daily_requests := []
    circuit_breaker_open := true
    circuit_breaker_open_time := some 100
    consecutive_failures := 2
    max_requests_per_minute := 8
    max_requests_per_day := 1200
    circuit_breaker_failures := 2
    circuit_breaker_timeout := 300
    sleep_between_requests := 10 }

/-- Witness for C3: both halves of `circuit_open_fencing` at concrete
states — the serverless breaker open at 100 queried at 150, and the backend
breaker with `reset_time = 30` queried at 0. -/
theorem circuit_open_fencing_witness :
    ((sl_execute_with_rate_limit (.ok "x") 150 openSLState).result
        = .error "Circuit breaker is open - too many failures" ∧
      (sl_execute_with_rate_limit (.ok "x") 150 openSLState).funcCalls = 0) ∧
    ((execute_with_rate_limit (fun _ => .ok "resp") 5 0 openBreakerState).result
        = .ok "resp" ∧
      (execute_with_rate_limit (fun _ => .ok "resp") 5 0 openBreakerState).funcCalls = 1 ∧
      (execute_with_rate_limit (fun _ => .ok "resp") 5 0 openBreakerState).callTimes
        = [30]) :=
  circuit_open_fencing (.ok "x") 150 100 openSLState rfl rfl
    (by norm_num [openSLState]) (fun _ => .ok "resp") "resp" rfl
    openBreakerState 0 30 4
    (by norm_num [openBreakerState, initRateLimiter]) rfl (by norm_num)

/-- Claim C10 counterexample: at a state with the breaker engaged
(`openBreakerState`), the admission check waits out the breaker before the
reset (outcome: proceed at instant 30 after waiting) but, after
`reset_statistics`, proceeds immediately (outcome: instant 0.5, no wait) —
so the outcome of a subsequent admission check is *not* the same as without
the reset. -/
theorem reset_changes_admission_counterexample :
    (wait_if_needed 0 (reset_statistics openBreakerState)).1
      ≠ (wait_if_needed 0 openBreakerState).1 := by
  norm_num [wait_if_needed, clean_request_history, is_circuit_open, waitAfterCircuit,
    reset_statistics, openBreakerState, initRateLimiter, dateOf, listMin]

/-- The post-breaker part of the admission check depends only on the windows
and their limits. -/
theorem waitAfterCircuit_windows (s1 s2 : RLState) (now : ℚ)
    (hm : s1.minute_requests = s2.minute_requests)
    (hd : s1.daily_requests = s2.daily_requests)
    (hmm : s1.max_requests_per_minute = s2.max_requests_per_minute)
    (hdd : s1.max_requests_per_day = s2.max_requests_per_day) :
    waitAfterCircuit now s1 = waitAfterCircuit now s2 := by
  simp only [waitAfterCircuit, hm, hd, hmm, hdd]

/-- Claim C10 (amended): `reset_statistics` zeroes the four request counters
and the circuit-breaker state while leaving both request windows unchanged;
whenever the breaker was not engaged (`failures < threshold`), a subsequent
admission check has exactly the same outcome as without the reset.  (When
the breaker *was* engaged the outcomes differ — see the counterexample.) -/
theorem reset_statistics_spec (s : RLState) (now : ℚ)
    (h : s.circuit_breaker_failures < s.circuit_breaker_threshold) :
    (reset_statistics s).total_requests = 0 ∧
    (reset_statistics s).successful_requests = 0 ∧
    (reset_statistics s).failed_requests = 0 ∧
    (reset_statistics s).rate_limited_count = 0 ∧
    (reset_statistics s).circuit_breaker_failures = 0 ∧
    (reset_statistics s).circuit_breaker_reset_time = none ∧
    (reset_statistics s).minute_requests = s.minute_requests ∧
    (reset_statistics s).daily_requests = s.daily_requests ∧
    (wait_if_needed now (reset_statistics s)).1 = (wait_if_needed now s).1 := by
  have hth : 0 < s.circuit_breaker_threshold := lt_of_le_of_lt (Nat.zero_le _) h
  refine ⟨rfl, rfl, rfl, rfl, rfl, rfl, rfl, rfl, ?_⟩
  rw [wait_if_needed, wait_if_needed]
  have h1 : is_circuit_open now (clean_request_history now (reset_statistics s))
      = (false, clean_request_history now (reset_statistics s)) := by
    rw [is_circuit_open]
    rw [if_neg]
    simp only [clean_request_history, reset_statistics]
    omega
  have h2 : is_circuit_open now (clean_request_history now s)
      = (false, clean_request_history now s) := by
    rw [is_circuit_open]
    rw [if_neg]
    simp only [clean_request_history]
    omega
  rw [h1, h2]
  exact waitAfterCircuit_windows _ _ now rfl rfl rfl rfl

/-- A closed-breaker limiter state with non-empty windows and a non-zero
request counter. -/
def someWindowsState : RLState :=
  { initRateLimiter with
    minute_requests := [1]
    daily_requests := [1]
    total_requests := 7 }

/-- Witness for C10: `reset_statistics_spec` at a closed-breaker state with
non-empty windows. -/
theorem reset_statistics_spec_witness :
    (reset_statistics someWindowsState).minute_requests
      = someWindowsState.minute_requests ∧
    (wait_if_needed 3 (reset_statistics someWindowsState)).1
      = (wait_if_needed 3 someWindowsState).1 := by
  have h := reset_statistics_spec someWindowsState 3
    (by norm_num [someWindowsState, initRateLimiter])
  exact ⟨h.2.2.2.2.2.2.1, h.2.2.2.2.2.2.2.2⟩
